import Mathlib

/-!
Verification development for the Asepeyo energy-efficiency dashboard
(`streamlit_app.py`).  The program loads a CSV of energy-audit records,
cleans it (numeric coercion with zero-substitution of unparsable cells,
`fillna(0)` over the whole frame), filters by a selected community, and
computes KPI scalars and grouped aggregates.

The embedding models a CSV cell by what matters to the pipeline: a cell
is missing (pandas NaN after `read_csv`), non-numeric text, or numeric
text with a rational value.  Numeric columns use exact rationals in
place of floats: every arithmetic operation performed by the program
(sum, division guarded against zero, scaling by 100) is exact-definable,
so the rational model is faithful to the values the program computes.
-/

/-- One CSV cell as `pd.read_csv` delivers it: missing (NaN), non-numeric
text, or a numeric value.  `pd.to_numeric(errors := coerce)` succeeds
exactly on the `number` case. -/
inductive CsvCell where
  | missing : CsvCell
  | text : String → CsvCell
  | number : ℚ → CsvCell
deriving DecidableEq

/-- One raw row of the source CSV, with the seven required columns
(whitespace-trimmed header names): Comunidad Autónoma, Center, Measure,
Energy Saved, Money Saved, Investment, Pay back period. -/
structure CsvRow where
  comunidadAutonoma : CsvCell
  center : CsvCell
  measure : CsvCell
  energySaved : CsvCell
  moneySaved : CsvCell
  investment : CsvCell
  paybackPeriod : CsvCell
deriving DecidableEq

/-- One loaded Record after cleaning: string columns keep their cell value
(`fillna(0)` turns a missing cell into the integer value 0, modelled as
`CsvCell.number 0`), numeric columns are always well-defined rationals. -/
structure Record where
  comunidadAutonoma : CsvCell
  center : CsvCell
  measure : CsvCell
  energySaved : ℚ
  moneySaved : ℚ
  investment : ℚ
  paybackPeriod : ℚ
deriving DecidableEq

/-- Numeric coercion of one cell, as `pd.to_numeric(errors := coerce)`:
a numeric cell keeps its value, text and missing cells become NaN
(modelled as `none`). -/
def toNumericCoerce : CsvCell → Option ℚ
  | CsvCell.number q => some q
  | CsvCell.text _ => none
  | CsvCell.missing => none

/-- Zero-substitution of a coerced numeric cell, as `df.fillna(0)` acts on
a numeric column: NaN becomes exactly 0. -/
def fillNumeric : Option ℚ → ℚ
  | some q => q
  | none => 0

/-- Zero-substitution on a string column, as `df.fillna(0)` acts there:
a missing cell becomes the integer value 0 (not a null); present cells
are unchanged. -/
def fillString : CsvCell → CsvCell
  | CsvCell.missing => CsvCell.number 0
  | c => c

/-- Cleaning of one row: numeric columns are coerced then zero-filled,
string columns are zero-filled (lines 29-31 of `streamlit_app.py`). -/
def loadRow (row : CsvRow) : Record :=
  { comunidadAutonoma := fillString row.comunidadAutonoma
    center := fillString row.center
    measure := fillString row.measure
    energySaved := fillNumeric (toNumericCoerce row.energySaved)
    moneySaved := fillNumeric (toNumericCoerce row.moneySaved)
    investment := fillNumeric (toNumericCoerce row.investment)
    paybackPeriod := fillNumeric (toNumericCoerce row.paybackPeriod) }

/-- Outcome of attempting to read and parse the file at a path.
`pd.read_csv` raises `FileNotFoundError` when the path does not exist and
`PermissionError` when the file exists but is unreadable. -/
inductive ReadResult where
  | found : List CsvRow → ReadResult
  | notFound : ReadResult
  | permissionDenied : ReadResult
deriving DecidableEq

/-- The file system as the loader observes it: each path either yields
parsed rows, or raises one of the two read-time exceptions. -/
def FileSystem : Type := String → ReadResult

/-- A Python exception escaping the program uncaught. -/
inductive PyError where
  | permissionError : PyError
deriving DecidableEq

/-- Result of one call to `load_data`: the cleaned Dataset, and whether the
`st.error` message was shown. -/
structure LoadOutcome where
  df : List Record
  errorShown : Bool
deriving DecidableEq

/-- The loader `load_data` (lines 21-35): parse the CSV, clean the rows;
`except FileNotFoundError` recovers a missing path into an empty frame
with an `st.error` message; a `PermissionError` from an unreadable file
is not caught and propagates. -/
def load_data (fs : FileSystem) (filePath : String) : Except PyError LoadOutcome :=
  match fs filePath with
  | ReadResult.found rows => Except.ok { df := rows.map loadRow, errorShown := false }
  | ReadResult.notFound => Except.ok { df := [], errorShown := true }
  | ReadResult.permissionDenied => Except.error PyError.permissionError

/-- The sentinel offered first in the community selector (line 48). -/
def allSentinel : CsvCell := CsvCell.text "All"

/-- Filtering by the selected community (lines 52-55): the whole Dataset
when the sentinel All is selected, otherwise the rows whose community
equals the selection. -/
def df_filtered (df : List Record) (selected : CsvCell) : List Record :=
  if selected = allSentinel then df
  else df.filter (fun r => r.comunidadAutonoma = selected)

/-- KPI: total investment over a view (line 62). -/
def total_investment (dfF : List Record) : ℚ :=
  (dfF.map Record.investment).sum

/-- KPI: total money saved over a view (line 63). -/
def total_money_saved (dfF : List Record) : ℚ :=
  (dfF.map Record.moneySaved).sum

/-- KPI: total energy saved over a view (line 64). -/
def total_energy_saved (dfF : List Record) : ℚ :=
  (dfF.map Record.energySaved).sum

/-- KPI: return on investment (lines 67-70), division guarded by the
`total_investment > 0` test. -/
def roi (dfF : List Record) : ℚ :=
  if 0 < total_investment dfF then total_money_saved dfF / total_investment dfF * 100
  else 0

/-- Grouping a list of Records by a key column, as `df.groupby(col)`:
one group per distinct key value, each group holding the rows carrying
that key.  Key order is first occurrence; the spec leaves the key order
of non-sorted outputs unspecified and every claim below is insensitive
to it. -/
def groupBy (key : Record → CsvCell) (l : List Record) : List (CsvCell × List Record) :=
  ((l.map key).dedup).map (fun k => (k, l.filter (fun r => key r = k)))

/-- A pandas `groupby` with its default NaN-key dropping: rows whose key
cell is missing are excluded before grouping. -/
def groupByDropNa (key : Record → CsvCell) (l : List Record) : List (CsvCell × List Record) :=
  groupBy key (l.filter (fun r => key r ≠ CsvCell.missing))

/-- The count a pandas series `.count()` reports for the Measure column of
a group: the number of non-missing Measure cells. -/
def seriesCount (l : List Record) : ℕ :=
  (l.filter (fun r => r.measure ≠ CsvCell.missing)).length

/-- Measures per community over the whole Dataset (line 89). -/
def measures_per_community (df : List Record) : List (CsvCell × ℕ) :=
  (groupBy Record.comunidadAutonoma df).map (fun g => (g.1, seriesCount g.2))

/-- Measures per center over the filtered view (line 97). -/
def measures_per_center (dfF : List Record) : List (CsvCell × ℕ) :=
  (groupBy Record.center dfF).map (fun g => (g.1, seriesCount g.2))

/-- Descending-by-count ordering used by `sort_values(Count, ascending :=
False)`. -/
def countDesc (a b : CsvCell × ℕ) : Prop := b.2 ≤ a.2

instance : DecidableRel countDesc := fun a b => Nat.decLe b.2 a.2

/-- Data of the first chart (lines 87-102): measures per community over
the whole Dataset when All is selected, measures per center over the
filtered view otherwise, sorted descending by count. -/
def measures_chart_data (df : List Record) (selected : CsvCell) : List (CsvCell × ℕ) :=
  if selected = allSentinel then List.insertionSort countDesc (measures_per_community df)
  else List.insertionSort countDesc (measures_per_center (df_filtered df selected))

/-- Energy savings per community over the filtered view (line 108). -/
def energy_savings_community (dfF : List Record) : List (CsvCell × ℚ) :=
  (groupBy Record.comunidadAutonoma dfF).map
    (fun g => (g.1, (g.2.map Record.energySaved).sum))

/-- Economic savings per community over the filtered view (line 143). -/
def economic_savings_community (dfF : List Record) : List (CsvCell × ℚ) :=
  (groupBy Record.comunidadAutonoma dfF).map
    (fun g => (g.1, (g.2.map Record.moneySaved).sum))

/-- One row of the regional investment summary table (lines 119-126). -/
structure SummaryRow where
  key : CsvCell
  total_Investment : ℚ
  measure_Count : ℕ
  average_Investment_per_Measure : ℚ
deriving DecidableEq

/-- The regional investment summary (lines 119-126): group the filtered
view by community; per group, total investment, count of measures, and
average investment per measure guarded against a zero count. -/
def regional_investment_summary (dfF : List Record) : List SummaryRow :=
  (groupBy Record.comunidadAutonoma dfF).map (fun g =>
    let total := (g.2.map Record.investment).sum
    let cnt := seriesCount g.2
    { key := g.1
      total_Investment := total
      measure_Count := cnt
      average_Investment_per_Measure := if cnt > 0 then total / (cnt : ℚ) else 0 })

/-- Investment versus money saved per community (lines 155-158). -/
def financial_summary (dfF : List Record) : List (CsvCell × ℚ × ℚ) :=
  (groupBy Record.comunidadAutonoma dfF).map
    (fun g => (g.1, (g.2.map Record.investment).sum, (g.2.map Record.moneySaved).sum))

/-- The Madrid sentinel of the conditional detail section (line 173). -/
def madridSentinel : CsvCell := CsvCell.text "Madrid"

/-- The Madrid detail section (lines 173-182): present only when Madrid is
selected; each record of the filtered view is paired with its
Energy_Saving_Percent, the whole column set to 0 unless the total energy
saved of the view is positive. -/
def df_madrid (df : List Record) (selected : CsvCell) : Option (List (Record × ℚ)) :=
  if selected = madridSentinel then
    let dfM := df_filtered df selected
    let total := total_energy_saved dfM
    some (dfM.map (fun r =>
      (r, if 0 < total then r.energySaved / total * 100 else 0)))
  else none

/-- Everything the main panel computes and renders when the Dataset is
non-empty (lines 40-191). -/
structure DashboardOutput where
  kpiTotalInvestment : ℚ
  kpiTotalMoneySaved : ℚ
  kpiTotalEnergySaved : ℚ
  kpiRoi : ℚ
  chartMeasures : List (CsvCell × ℕ)
  chartEnergy : List (CsvCell × ℚ)
  tableRegional : List SummaryRow
  chartMoney : List (CsvCell × ℚ)
  chartFinancial : List (CsvCell × ℚ × ℚ)
  madridDetail : Option (List (Record × ℚ))

/-- The full aggregation bundle over a loaded Dataset and a selection. -/
def renderDashboard (df : List Record) (selected : CsvCell) : DashboardOutput :=
  let dfF := df_filtered df selected
  { kpiTotalInvestment := total_investment dfF
    kpiTotalMoneySaved := total_money_saved dfF
    kpiTotalEnergySaved := total_energy_saved dfF
    kpiRoi := roi dfF
    chartMeasures := measures_chart_data df selected
    chartEnergy := energy_savings_community dfF
    tableRegional := regional_investment_summary dfF
    chartMoney := economic_savings_community dfF
    chartFinancial := financial_summary dfF
    madridDetail := df_madrid df selected }

/-- Result of one whole run of the script: the rendered output when the
Dataset is non-empty, and whether the closing `st.warning` was shown. -/
structure AppResult where
  output : Option DashboardOutput
  errorShown : Bool
  warningShown : Bool

/-- The script top level (lines 38-194): load, then either render the
dashboard or show the warning, guarded by `if not df.empty`. -/
def app (fs : FileSystem) (filePath : String) (selected : CsvCell) :
    Except PyError AppResult :=
  match load_data fs filePath with
  | Except.error e => Except.error e
  | Except.ok out =>
    if out.df = [] then
      Except.ok { output := none, errorShown := out.errorShown, warningShown := true }
    else
      Except.ok { output := some (renderDashboard out.df selected)
                  errorShown := out.errorShown
                  warningShown := false }

/-- The `st.cache_data` memo table: cached return values keyed by the
argument `file_path`. -/
def Cache : Type := List (String × LoadOutcome)

/-- Result of one call through the `st.cache_data` wrapper. -/
structure CachedCall where
  result : LoadOutcome
  cache : List (String × LoadOutcome)
  didRead : Bool
deriving DecidableEq

/-- The `st.cache_data` wrapper around `load_data` (line 21): a cache hit
returns the stored value without touching the file; a miss runs the
loader and stores its return value. -/
def load_data_cached (fs : FileSystem) (cache : Cache) (filePath : String) :
    Except PyError CachedCall :=
  match List.lookup filePath cache with
  | some v => Except.ok { result := v, cache := cache, didRead := false }
  | none =>
    match load_data fs filePath with
    | Except.ok v =>
      Except.ok { result := v, cache := (filePath, v) :: cache, didRead := true }
    | Except.error e => Except.error e

/-- Sample Record from the example scenario of the spec: a Madrid measure
with investment 1000, money saved 200, energy saved 500. -/
def sampleRecord1 : Record :=
  { comunidadAutonoma := CsvCell.text "Madrid"
    center := CsvCell.text "Center A"
    measure := CsvCell.text "LED retrofit"
    energySaved := 500
    moneySaved := 200
    investment := 1000
    paybackPeriod := 0 }

/-- Sample Record: a second Madrid measure with investment 500, money
saved 100, energy saved 250. -/
def sampleRecord2 : Record :=
  { comunidadAutonoma := CsvCell.text "Madrid"
    center := CsvCell.text "Center B"
    measure := CsvCell.text "HVAC upgrade"
    energySaved := 250
    moneySaved := 100
    investment := 500
    paybackPeriod := 0 }

/-- Sample Record: a Cataluña measure with investment 2000 and no
savings. -/
def sampleRecord3 : Record :=
  { comunidadAutonoma := CsvCell.text "Cataluña"
    center := CsvCell.text "Center C"
    measure := CsvCell.text "Insulation"
    energySaved := 0
    moneySaved := 0
    investment := 2000
    paybackPeriod := 0 }

/-- Sample three-Record Dataset of the example scenario. -/
def sampleDf : List Record := [sampleRecord1, sampleRecord2, sampleRecord3]

/-- Sample raw CSV row whose numeric cells are unparsable or missing. -/
def badRow : CsvRow :=
  { comunidadAutonoma := CsvCell.missing
    center := CsvCell.missing
    measure := CsvCell.missing
    energySaved := CsvCell.text "N/A"
    moneySaved := CsvCell.missing
    investment := CsvCell.text "N/A"
    paybackPeriod := CsvCell.text "tbd" }

/-- Sample Madrid Record with a negative energy saving, as a cost
increase would be recorded. -/
def negativeRecord : Record :=
  { comunidadAutonoma := CsvCell.text "Madrid"
    center := CsvCell.text "Center D"
    measure := CsvCell.text "Rebuild"
    energySaved := -5
    moneySaved := 0
    investment := 100
    paybackPeriod := 0 }

/-- Sample raw CSV row matching `sampleRecord1`. -/
def sampleRow1 : CsvRow :=
  { comunidadAutonoma := CsvCell.text "Madrid"
    center := CsvCell.text "Center A"
    measure := CsvCell.text "LED retrofit"
    energySaved := CsvCell.number 500
    moneySaved := CsvCell.number 200
    investment := CsvCell.number 1000
    paybackPeriod := CsvCell.number 0 }

/-- Sample file system on which every path reads as a one-row CSV. -/
def sampleFs : FileSystem := fun _ => ReadResult.found [sampleRow1]

/-- The cached-call outcome of the first load against `sampleFs`. -/
def sampleCachedCall : CachedCall :=
  { result := { df := [loadRow sampleRow1], errorShown := false }
    cache := [("data.csv", { df := [loadRow sampleRow1], errorShown := false })]
    didRead := true }

/-- The Madrid row of the regional investment summary of `sampleDf`. -/
def sampleSummaryRow : SummaryRow :=
  { key := CsvCell.text "Madrid"
    total_Investment := 1500
    measure_Count := 2
    average_Investment_per_Measure := 750 }

/-- The Cataluña row of the regional investment summary of `sampleDf`. -/
def catalunaSummaryRow : SummaryRow :=
  { key := CsvCell.text "Cataluña"
    total_Investment := 2000
    measure_Count := 1
    average_Investment_per_Measure := 2000 }

/-- The pair the Madrid detail section derives from `sampleRecord1`. -/
def samplePercentPair : Record × ℚ := (sampleRecord1, 500 / 750 * 100)

instance : IsTotal (CsvCell × ℕ) countDesc :=
  ⟨fun a b => Nat.le_total b.2 a.2⟩

instance : IsTrans (CsvCell × ℕ) countDesc :=
  ⟨fun _ _ _ hab hbc => Nat.le_trans hbc hab⟩

theorem fillString_ne_missing (c : CsvCell) : fillString c ≠ CsvCell.missing := by
  cases c <;> simp [fillString]

theorem mem_groupBy_eq_filter (key : Record → CsvCell) (l : List Record)
    (k : CsvCell) (g : List Record) (h : (k, g) ∈ groupBy key l) :
    g = l.filter (fun r => key r = k) := by
  unfold groupBy at h
  obtain ⟨a, _, ha⟩ := List.mem_map.mp h
  cases ha
  rfl

theorem count_filter_key (key : Record → CsvCell) (q : CsvCell) (r : Record)
    (l : List Record) :
    (l.filter (fun x => key x = q)).count r =
      if key r = q then l.count r else 0 := by
  by_cases h : key r = q
  · rw [if_pos h]
    exact List.count_filter (by simpa using h)
  · rw [if_neg h]
    refine List.count_eq_zero.mpr fun hmem => ?_
    have hm := List.mem_filter.mp hmem
    exact h (by simpa using hm.2)


theorem groupBy_snd (key : Record → CsvCell) (l : List Record) :
    (groupBy key l).map Prod.snd =
      (l.map key).dedup.map (fun k => l.filter (fun x => key x = k)) := by
  unfold groupBy
  rw [List.map_map]
  rfl

theorem count_filter_sum (key : Record → CsvCell) (l : List Record) (r : Record)
    (ks : List CsvCell) (hnd : ks.Nodup) :
    ((ks.map (fun k => l.filter (fun x => key x = k))).flatten).count r =
      if key r ∈ ks then l.count r else 0 := by
  induction ks with
  | nil => simp
  | cons x xs ih =>
    rw [List.map_cons, List.flatten_cons, List.count_append,
      ih (List.nodup_cons.mp hnd).2, count_filter_key]
    by_cases h : key r = x
    · rw [if_pos h, if_pos (List.mem_cons.mpr (Or.inl h))]
      rw [if_neg fun hmem => (List.nodup_cons.mp hnd).1 (h ▸ hmem), Nat.add_zero]
    · rw [if_neg h]
      by_cases h2 : key r ∈ xs
      · rw [if_pos h2, if_pos (List.mem_cons.mpr (Or.inr h2)), Nat.zero_add]
      · rw [if_neg h2, if_neg]
        intro hmem
        rcases List.mem_cons.mp hmem with hc | hc
        · exact h hc
        · exact h2 hc

theorem flatten_groupBy_perm (key : Record → CsvCell) (l : List Record) :
    List.Perm (((groupBy key l).map Prod.snd).flatten) l := by
  rw [List.perm_iff_count]
  intro r
  rw [groupBy_snd, count_filter_sum key l r ((l.map key).dedup) (List.nodup_dedup _)]
  by_cases h : key r ∈ (l.map key).dedup
  · rw [if_pos h]
  · rw [if_neg h]
    refine (List.count_eq_zero.mpr fun hr => ?_).symm
    exact h (List.mem_dedup.mpr (List.mem_map_of_mem key hr))

theorem seriesCount_eq_length (l : List Record)
    (h : ∀ r ∈ l, r.measure ≠ CsvCell.missing) :
    seriesCount l = l.length := by
  unfold seriesCount
  rw [List.filter_eq_self.mpr]
  intro a ha
  simpa using h a ha

/-- C2: for every Dataset and filter selection, roi equals (total money
saved / total investment) * 100 when the total investment is positive,
and roi equals 0 when the total investment is zero, so the division is
never taken at a zero denominator. -/
theorem roi_spec (df : List Record) (selected : CsvCell) :
    (0 < total_investment (df_filtered df selected) →
      roi (df_filtered df selected) =
        total_money_saved (df_filtered df selected) /
          total_investment (df_filtered df selected) * 100) ∧
    (total_investment (df_filtered df selected) = 0 →
      roi (df_filtered df selected) = 0) := by
  constructor
  · intro h
    rw [roi, if_pos h]
  · intro h
    rw [roi, if_neg]
    rw [h]
    exact lt_irrefl 0

/-- Witness for C2 on the example scenario: with Madrid selected the roi
is 20, and on the empty Dataset the total investment is 0 and the roi
is 0. -/
theorem roi_spec_witness :
    roi (df_filtered sampleDf madridSentinel) =
      total_money_saved (df_filtered sampleDf madridSentinel) /
        total_investment (df_filtered sampleDf madridSentinel) * 100 ∧
    roi (df_filtered [] allSentinel) = 0 :=
  ⟨(roi_spec sampleDf madridSentinel).1
      (by norm_num +decide [total_investment, df_filtered, madridSentinel, allSentinel,
        sampleDf, sampleRecord1, sampleRecord2, sampleRecord3]),
   (roi_spec [] allSentinel).2 (by simp [total_investment, df_filtered])⟩

/-- C4: the filtered view is the whole Dataset when the sentinel All is
selected; otherwise it holds exactly the Records whose community equals
the selection, each with its multiplicity from the Dataset. -/
theorem df_filtered_spec (df : List Record) (selected : CsvCell) :
    (selected = allSentinel → df_filtered df selected = df) ∧
    (selected ≠ allSentinel →
      ∀ r : Record,
        (r ∈ df_filtered df selected ↔ r ∈ df ∧ r.comunidadAutonoma = selected) ∧
        (df_filtered df selected).count r =
          (if r.comunidadAutonoma = selected then df.count r else 0)) := by
  constructor
  · intro h
    rw [df_filtered, if_pos h]
  · intro h r
    rw [df_filtered, if_neg h]
    constructor
    · rw [List.mem_filter]
      simp
    · exact count_filter_key Record.comunidadAutonoma selected r df

/-- Witness for C4: filtering the example Dataset by All returns it
whole, and filtering by Madrid keeps a Madrid Record while its count
matches the Dataset count. -/
theorem df_filtered_spec_witness :
    df_filtered sampleDf allSentinel = sampleDf ∧
    (sampleRecord1 ∈ df_filtered sampleDf madridSentinel ↔
      sampleRecord1 ∈ sampleDf ∧ sampleRecord1.comunidadAutonoma = madridSentinel) ∧
    (df_filtered sampleDf madridSentinel).count sampleRecord1 =
      (if sampleRecord1.comunidadAutonoma = madridSentinel
        then sampleDf.count sampleRecord1 else 0) :=
  ⟨(df_filtered_spec sampleDf allSentinel).1 rfl,
   ((df_filtered_spec sampleDf madridSentinel).2 (by decide) sampleRecord1).1,
   ((df_filtered_spec sampleDf madridSentinel).2 (by decide) sampleRecord1).2⟩

/-- C8: grouped aggregates by community and by center partition the
filtered view: the concatenation of the Records of all groups is a
permutation of the filtered view, so no Record is omitted or
duplicated. -/
theorem grouping_completeness (df : List Record) (selected : CsvCell) :
    List.Perm
      (((groupBy Record.comunidadAutonoma (df_filtered df selected)).map Prod.snd).flatten)
      (df_filtered df selected) ∧
    List.Perm
      (((groupBy Record.center (df_filtered df selected)).map Prod.snd).flatten)
      (df_filtered df selected) :=
  ⟨flatten_groupBy_perm Record.comunidadAutonoma (df_filtered df selected),
   flatten_groupBy_perm Record.center (df_filtered df selected)⟩

/-- C1 counterexample: on a file system where the configured path exists
but is unreadable, `load_data` propagates the uncaught PermissionError
instead of returning an empty Dataset. -/
theorem load_unreadable_counterexample :
    load_data (fun _ => ReadResult.permissionDenied)
      "data/2025 Energy Audit summary - Sheet1 (1).csv" =
      Except.error PyError.permissionError := rfl

/-- C1 amended: for every path that does not exist, `load_data` returns
an empty Dataset with the error message shown, the dashboard body is
skipped (no KPI or grouped aggregate is computed) and the closing
warning is shown; a path that exists but is unreadable instead
propagates an uncaught PermissionError. -/
theorem load_notFound_spec (fs : FileSystem) (filePath : String) (selected : CsvCell)
    (h : fs filePath = ReadResult.notFound) :
    load_data fs filePath = Except.ok { df := [], errorShown := true } ∧
    app fs filePath selected =
      Except.ok { output := none, errorShown := true, warningShown := true } ∧
    (∀ fs2 : FileSystem, fs2 filePath = ReadResult.permissionDenied →
      load_data fs2 filePath = Except.error PyError.permissionError) := by
  refine ⟨?_, ?_, ?_⟩
  · rw [load_data, h]
  · simp [app, load_data, h]
  · intro fs2 h2
    rw [load_data, h2]

/-- Witness for C1 amended on a file system with no readable path. -/
theorem load_notFound_spec_witness :
    load_data (fun _ => ReadResult.notFound) "data.csv" =
      Except.ok { df := [], errorShown := true } ∧
    app (fun _ => ReadResult.notFound) "data.csv" allSentinel =
      Except.ok { output := none, errorShown := true, warningShown := true } ∧
    load_data (fun _ => ReadResult.permissionDenied) "data.csv" =
      Except.error PyError.permissionError :=
  ⟨(load_notFound_spec (fun _ => ReadResult.notFound) "data.csv" allSentinel rfl).1,
   (load_notFound_spec (fun _ => ReadResult.notFound) "data.csv" allSentinel rfl).2.1,
   (load_notFound_spec (fun _ => ReadResult.notFound) "data.csv" allSentinel rfl).2.2
     (fun _ => ReadResult.permissionDenied) rfl⟩

/-- C3: numeric attributes of a loaded Record are always well-defined
rationals; any numeric cell that fails to parse (missing or non-numeric
text) yields exactly 0 in the Record and contributes 0 to the sum over
its column. -/
theorem numeric_zero_substitution (row : CsvRow) (rest : List Record) :
    (toNumericCoerce row.energySaved = none →
      (loadRow row).energySaved = 0 ∧
      total_energy_saved (loadRow row :: rest) = total_energy_saved rest) ∧
    (toNumericCoerce row.moneySaved = none →
      (loadRow row).moneySaved = 0 ∧
      total_money_saved (loadRow row :: rest) = total_money_saved rest) ∧
    (toNumericCoerce row.investment = none →
      (loadRow row).investment = 0 ∧
      total_investment (loadRow row :: rest) = total_investment rest) ∧
    (toNumericCoerce row.paybackPeriod = none →
      (loadRow row).paybackPeriod = 0) := by
  refine ⟨fun h => ⟨?_, ?_⟩, fun h => ⟨?_, ?_⟩, fun h => ⟨?_, ?_⟩, fun h => ?_⟩ <;>
    simp [loadRow, fillNumeric, h, total_energy_saved, total_money_saved, total_investment]

/-- Witness for C3 on a row whose numeric cells are all unparsable. -/
theorem numeric_zero_substitution_witness :
    ((loadRow badRow).energySaved = 0 ∧
      total_energy_saved [loadRow badRow] = total_energy_saved []) ∧
    ((loadRow badRow).investment = 0 ∧
      total_investment [loadRow badRow] = total_investment []) ∧
    (loadRow badRow).paybackPeriod = 0 :=
  ⟨(numeric_zero_substitution badRow []).1 rfl,
   (numeric_zero_substitution badRow []).2.2.1 rfl,
   (numeric_zero_substitution badRow []).2.2.2 rfl⟩

/-- C9: with the path-keyed cache, the first call of the cached loader
reads the file, and a second call with the same path returns a Dataset
with identical contents without re-reading. -/
theorem load_data_cached_idempotent (fs : FileSystem) (filePath : String)
    (c1 : CachedCall) (h1 : load_data_cached fs [] filePath = Except.ok c1) :
    c1.didRead = true ∧
    load_data_cached fs c1.cache filePath =
      Except.ok { result := c1.result, cache := c1.cache, didRead := false } := by
  rw [load_data_cached, show List.lookup filePath ([] : Cache) = none from rfl] at h1
  cases hload : load_data fs filePath with
  | error e =>
    rw [hload] at h1
    cases h1
  | ok v =>
    rw [hload] at h1
    cases h1
    constructor
    · rfl
    · rw [load_data_cached]
      have : List.lookup filePath
          ([(filePath, v)] : Cache) = some v := by
        simp [List.lookup]
      rw [this]

/-- Witness for C9: the first cached load against `sampleFs` reads the
file, the second returns the same contents without reading. -/
theorem load_data_cached_idempotent_witness :
    sampleCachedCall.didRead = true ∧
    load_data_cached sampleFs sampleCachedCall.cache "data.csv" =
      Except.ok { result := sampleCachedCall.result
                  cache := sampleCachedCall.cache
                  didRead := false } :=
  load_data_cached_idempotent sampleFs "data.csv" sampleCachedCall rfl

/-- C10: the load-time zero-substitution applies to the string columns
too: a missing community, center or measure cell loads as the value 0
rather than as a null; hence no grouping key of a loaded Dataset is
missing, and the NaN-key-dropping pandas groupby drops no Record of a
loaded Dataset, whether keyed by community or by center. -/
theorem string_fillna_spec (rows : List CsvRow) (row : CsvRow) :
    (row.comunidadAutonoma = CsvCell.missing →
      (loadRow row).comunidadAutonoma = CsvCell.number 0) ∧
    (row.center = CsvCell.missing → (loadRow row).center = CsvCell.number 0) ∧
    (row.measure = CsvCell.missing → (loadRow row).measure = CsvCell.number 0) ∧
    (∀ r ∈ rows.map loadRow,
      r.comunidadAutonoma ≠ CsvCell.missing ∧ r.center ≠ CsvCell.missing) ∧
    groupByDropNa Record.comunidadAutonoma (rows.map loadRow) =
      groupBy Record.comunidadAutonoma (rows.map loadRow) ∧
    groupByDropNa Record.center (rows.map loadRow) =
      groupBy Record.center (rows.map loadRow) := by
  refine ⟨fun h => ?_, fun h => ?_, fun h => ?_, ?_, ?_, ?_⟩
  · simp [loadRow, h, fillString]
  · simp [loadRow, h, fillString]
  · simp [loadRow, h, fillString]
  · intro r hr
    obtain ⟨row2, _, rfl⟩ := List.mem_map.mp hr
    exact ⟨fillString_ne_missing row2.comunidadAutonoma,
      fillString_ne_missing row2.center⟩
  · rw [groupByDropNa, List.filter_eq_self.mpr]
    intro r hr
    obtain ⟨row2, _, rfl⟩ := List.mem_map.mp hr
    simpa using fillString_ne_missing row2.comunidadAutonoma
  · rw [groupByDropNa, List.filter_eq_self.mpr]
    intro r hr
    obtain ⟨row2, _, rfl⟩ := List.mem_map.mp hr
    simpa using fillString_ne_missing row2.center

/-- Witness for C10 on a row with all string cells missing. -/
theorem string_fillna_spec_witness :
    (loadRow badRow).comunidadAutonoma = CsvCell.number 0 ∧
    (loadRow badRow).center = CsvCell.number 0 ∧
    (loadRow badRow).measure = CsvCell.number 0 ∧
    ((loadRow badRow).comunidadAutonoma ≠ CsvCell.missing ∧
      (loadRow badRow).center ≠ CsvCell.missing) ∧
    groupByDropNa Record.comunidadAutonoma ([badRow].map loadRow) =
      groupBy Record.comunidadAutonoma ([badRow].map loadRow) :=
  ⟨(string_fillna_spec [badRow] badRow).1 rfl,
   (string_fillna_spec [badRow] badRow).2.1 rfl,
   (string_fillna_spec [badRow] badRow).2.2.1 rfl,
   (string_fillna_spec [badRow] badRow).2.2.2.1 (loadRow badRow)
     (List.mem_map.mpr ⟨badRow, List.mem_singleton.mpr rfl, rfl⟩),
   (string_fillna_spec [badRow] badRow).2.2.2.2.1⟩

/-- C5: every row of the regional investment summary reports, for its
community group of the filtered view, the record count of the group,
the summed investment of the group, and an average investment per
measure equal to total/count when the count is positive and to 0 when
the count is zero. -/
theorem regional_investment_summary_spec (dfF : List Record)
    (hm : ∀ r ∈ dfF, r.measure ≠ CsvCell.missing)
    (row : SummaryRow) (hrow : row ∈ regional_investment_summary dfF) :
    row.measure_Count =
      (dfF.filter (fun r => r.comunidadAutonoma = row.key)).length ∧
    row.total_Investment =
      ((dfF.filter (fun r => r.comunidadAutonoma = row.key)).map Record.investment).sum ∧
    (0 < row.measure_Count →
      row.average_Investment_per_Measure =
        row.total_Investment / (row.measure_Count : ℚ)) ∧
    (row.measure_Count = 0 → row.average_Investment_per_Measure = 0) := by
  rw [regional_investment_summary] at hrow
  obtain ⟨g, hg, rfl⟩ := List.mem_map.mp hrow
  have hgf : g.2 = dfF.filter (fun r => r.comunidadAutonoma = g.1) :=
    mem_groupBy_eq_filter Record.comunidadAutonoma dfF g.1 g.2 hg
  have hsub : ∀ r ∈ g.2, r.measure ≠ CsvCell.missing := by
    intro r hr
    rw [hgf] at hr
    exact hm r (List.mem_filter.mp hr).1
  have hcnt : seriesCount g.2 = g.2.length := seriesCount_eq_length g.2 hsub
  refine ⟨?_, ?_, ?_, ?_⟩
  · show seriesCount g.2 = _
    rw [hcnt, hgf]
  · show (g.2.map Record.investment).sum = _
    rw [hgf]
  · intro h
    show (if 0 < seriesCount g.2
        then (g.2.map Record.investment).sum / (seriesCount g.2 : ℚ) else 0) =
      (g.2.map Record.investment).sum / (seriesCount g.2 : ℚ)
    exact if_pos h
  · intro h
    have h0 : seriesCount g.2 = 0 := h
    show (if 0 < seriesCount g.2
        then (g.2.map Record.investment).sum / (seriesCount g.2 : ℚ) else 0) = 0
    rw [if_neg]
    intro hlt
    rw [h0] at hlt
    exact Nat.lt_irrefl 0 hlt

/-- Witness for C5 on the example scenario Dataset: the Madrid group of
the summary has count 2, total investment 1500 and average 750. -/
theorem regional_investment_summary_spec_witness :
    sampleSummaryRow.measure_Count =
      (sampleDf.filter (fun r => r.comunidadAutonoma = sampleSummaryRow.key)).length ∧
    sampleSummaryRow.total_Investment =
      ((sampleDf.filter (fun r => r.comunidadAutonoma = sampleSummaryRow.key)).map
        Record.investment).sum ∧
    sampleSummaryRow.average_Investment_per_Measure =
      sampleSummaryRow.total_Investment / (sampleSummaryRow.measure_Count : ℚ) := by
  have hm : ∀ r ∈ sampleDf, r.measure ≠ CsvCell.missing := by decide
  have hrow : sampleSummaryRow ∈ regional_investment_summary sampleDf := by
    have he : regional_investment_summary sampleDf =
        [sampleSummaryRow, catalunaSummaryRow] := by
      norm_num +decide [regional_investment_summary, groupBy, seriesCount, sampleDf,
        sampleRecord1, sampleRecord2, sampleRecord3, sampleSummaryRow, catalunaSummaryRow,
        List.dedup_cons_of_mem, List.dedup_cons_of_not_mem]
    rw [he]
    exact List.mem_cons_self _ _
  exact ⟨(regional_investment_summary_spec sampleDf hm sampleSummaryRow hrow).1,
    (regional_investment_summary_spec sampleDf hm sampleSummaryRow hrow).2.1,
    (regional_investment_summary_spec sampleDf hm sampleSummaryRow hrow).2.2.1
      (by norm_num [sampleSummaryRow])⟩

theorem mem_df_filtered (df : List Record) (selected : CsvCell) :
    ∀ r ∈ df_filtered df selected, r ∈ df := by
  intro r hr
  rw [df_filtered] at hr
  split at hr
  · exact hr
  · exact (List.mem_filter.mp hr).1

theorem groupBy_counts_eq_lengths (key : Record → CsvCell) (l : List Record)
    (hm : ∀ r ∈ l, r.measure ≠ CsvCell.missing) :
    (groupBy key l).map (fun g => (g.1, seriesCount g.2)) =
      (groupBy key l).map (fun g => (g.1, g.2.length)) := by
  refine List.map_congr_left fun g hg => ?_
  have hgf : g.2 = l.filter (fun r => key r = g.1) :=
    mem_groupBy_eq_filter key l g.1 g.2 hg
  have hsub : ∀ r ∈ g.2, r.measure ≠ CsvCell.missing := by
    intro r hr
    rw [hgf] at hr
    exact hm r (List.mem_filter.mp hr).1
  rw [seriesCount_eq_length g.2 hsub]

/-- C7: the measure-count chart groups the whole Dataset by community and
counts the Records of each group when All is selected, and groups the
filtered view by center and counts otherwise; in both cases the groups
are listed in descending order of count. -/
theorem measures_chart_spec (df : List Record) (selected : CsvCell)
    (hm : ∀ r ∈ df, r.measure ≠ CsvCell.missing) :
    List.Sorted countDesc (measures_chart_data df selected) ∧
    (selected = allSentinel →
      List.Perm (measures_chart_data df selected)
        ((groupBy Record.comunidadAutonoma df).map (fun g => (g.1, g.2.length)))) ∧
    (selected ≠ allSentinel →
      List.Perm (measures_chart_data df selected)
        ((groupBy Record.center (df_filtered df selected)).map
          (fun g => (g.1, g.2.length)))) := by
  refine ⟨?_, ?_, ?_⟩
  · rw [measures_chart_data]
    split
    · exact List.sorted_insertionSort countDesc (measures_per_community df)
    · exact List.sorted_insertionSort countDesc
        (measures_per_center (df_filtered df selected))
  · intro h
    rw [measures_chart_data, if_pos h]
    have heq : measures_per_community df =
        (groupBy Record.comunidadAutonoma df).map (fun g => (g.1, g.2.length)) := by
      rw [measures_per_community]
      exact groupBy_counts_eq_lengths Record.comunidadAutonoma df hm
    rw [← heq]
    exact List.perm_insertionSort countDesc (measures_per_community df)
  · intro h
    rw [measures_chart_data, if_neg h]
    have hmf : ∀ r ∈ df_filtered df selected, r.measure ≠ CsvCell.missing :=
      fun r hr => hm r (mem_df_filtered df selected r hr)
    have heq : measures_per_center (df_filtered df selected) =
        (groupBy Record.center (df_filtered df selected)).map (fun g => (g.1, g.2.length)) := by
      rw [measures_per_center]
      exact groupBy_counts_eq_lengths Record.center (df_filtered df selected) hmf
    rw [← heq]
    exact List.perm_insertionSort countDesc (measures_per_center (df_filtered df selected))

/-- Witness for C7 on the example scenario Dataset with All selected. -/
theorem measures_chart_spec_witness :
    List.Sorted countDesc (measures_chart_data sampleDf allSentinel) ∧
    List.Perm (measures_chart_data sampleDf allSentinel)
      ((groupBy Record.comunidadAutonoma sampleDf).map (fun g => (g.1, g.2.length))) :=
  ⟨(measures_chart_spec sampleDf allSentinel (by decide)).1,
   (measures_chart_spec sampleDf allSentinel (by decide)).2.1 rfl⟩

/-- C6 counterexample: with Madrid selected and a single Madrid Record
whose energy saved is -5, the total energy saved of the filtered view is
-5, which is nonzero, yet the computed Energy_Saving_Percent column is 0
rather than the ratio (energy_saved / total) * 100 = 100 the claim
prescribes for a nonzero total. -/
theorem madrid_percent_counterexample :
    total_energy_saved (df_filtered [negativeRecord] madridSentinel) ≠ 0 ∧
    df_madrid [negativeRecord] madridSentinel ≠
      some ((df_filtered [negativeRecord] madridSentinel).map (fun r =>
        (r, r.energySaved /
          total_energy_saved (df_filtered [negativeRecord] madridSentinel) * 100))) := by
  have hdf : df_filtered [negativeRecord] madridSentinel = [negativeRecord] := by
    norm_num +decide [df_filtered, madridSentinel, allSentinel, negativeRecord]
  have htot : total_energy_saved [negativeRecord] = -5 := by
    norm_num [total_energy_saved, negativeRecord]
  constructor
  · rw [hdf, htot]
    norm_num
  · have hmad : df_madrid [negativeRecord] madridSentinel =
        some [(negativeRecord, 0)] := by
      rw [df_madrid, if_pos rfl]
      simp only [hdf, htot]
      norm_num
    rw [hmad, hdf, htot]
    norm_num [negativeRecord]

/-- C6 amended: the Energy_Saving_Percent attribute is computed only when
Madrid is selected; the detail section pairs each Record of the filtered
view with (energy_saved / total energy saved of the view) * 100 when
that total is positive, and with 0 when the total is not positive (in
particular when the total is 0). -/
theorem df_madrid_spec (df : List Record) (selected : CsvCell) :
    (selected ≠ madridSentinel → df_madrid df selected = none) ∧
    (selected = madridSentinel →
      ∃ ps : List (Record × ℚ), df_madrid df selected = some ps ∧
        ps.map Prod.fst = df_filtered df selected ∧
        ∀ p ∈ ps,
          (0 < total_energy_saved (df_filtered df selected) →
            p.2 = p.1.energySaved /
              total_energy_saved (df_filtered df selected) * 100) ∧
          (total_energy_saved (df_filtered df selected) ≤ 0 → p.2 = 0)) := by
  constructor
  · intro h
    rw [df_madrid, if_neg h]
  · intro h
    rw [df_madrid, if_pos h]
    refine ⟨(df_filtered df selected).map (fun r =>
      (r, if 0 < total_energy_saved (df_filtered df selected)
        then r.energySaved / total_energy_saved (df_filtered df selected) * 100
        else 0)), rfl, ?_, ?_⟩
    · rw [List.map_map]
      exact List.map_id (df_filtered df selected)
    · intro p hp
      obtain ⟨r, _, rfl⟩ := List.mem_map.mp hp
      constructor
      · intro hpos
        exact if_pos hpos
      · intro hle
        exact if_neg (not_lt.mpr hle)

/-- Witness for C6 amended on the example Dataset: no detail is computed
when All is selected, and with Madrid selected the first detail pair
receives (500 / 750) * 100. -/
theorem df_madrid_spec_witness :
    df_madrid sampleDf allSentinel = none ∧
    samplePercentPair.2 =
      samplePercentPair.1.energySaved /
        total_energy_saved (df_filtered sampleDf madridSentinel) * 100 := by
  refine ⟨(df_madrid_spec sampleDf allSentinel).1 (by decide), ?_⟩
  obtain ⟨ps, hps, hfst, hall⟩ := (df_madrid_spec sampleDf madridSentinel).2 rfl
  have hev : df_madrid sampleDf madridSentinel =
      some [samplePercentPair, (sampleRecord2, 250 / 750 * 100)] := by
    norm_num +decide [df_madrid, df_filtered, total_energy_saved, madridSentinel,
      allSentinel, sampleDf, sampleRecord1, sampleRecord2, sampleRecord3,
      samplePercentPair]
  rw [hev] at hps
  have hps2 := Option.some.inj hps
  rw [← hps2] at hall
  exact (hall samplePercentPair (List.mem_cons_self _ _)).1
    (by norm_num +decide [total_energy_saved, df_filtered, madridSentinel, allSentinel,
      sampleDf, sampleRecord1, sampleRecord2, sampleRecord3])
